import Mathlib

/-!
# CrazyCar-Simulation: verification of the C controller core

Shallow embedding of the C sources `src/c/myFunktions.c`, `src/c/cc-lib.c`
and `src/c/sim_globals.c` of the CrazyCar-Simulation repository, together
with theorems settling the specification claims about them.

Machine integers are modelled as `Nat` / `Int`; narrowing casts are made
explicit (`% 65536` for the `uint16_t` return cast, two's-complement
wrapping for `int16_t` / `int8_t`).  C signed division and remainder
truncate toward zero, so they are rendered with `Int.tdiv` / `Int.tmod`.
Unsigned intermediates of `linearisierungAD` are `uint32_t` in the C code;
their values are bounded by `23962 * 100 < 2 ^ 32`, so no `% 2 ^ 32`
reduction is observable and plain `Nat` arithmetic is exact.
-/

namespace CrazyCar

/-- Two's-complement interpretation of an integer as `int16_t`
(the effect of the C cast `(int16_t)x`). -/
def i16 (z : Int) : Int := (z + 32768) % 65536 - 32768

/-- Two's-complement interpretation of an integer as `int8_t`
(the effect of passing an arbitrary integer through an `int8_t` parameter). -/
def i8 (z : Int) : Int := (z + 128) % 256 - 128

/-- `uint16_t linearisierungAD(uint16_t messwert, uint8_t cosAlpha)` from
`myFunktions.c`: clamp `messwert` to `[ADC_MIN_CLAMP, ADC_MAX_CLAMP] = [163, 770]`,
compute `cm = LINEAR_A / (messwert + LINEAR_B) = 23962 / (messwert + 20)` in
`uint32_t`, replace a zero `cosAlpha` by `1`, apply `cm = cm * 100 / cosAlpha`,
and return `(uint16_t)cm`. -/
def linearisierungAD (messwert : Nat) (cosAlpha : Nat) : Nat :=
  let m1 := if messwert < 163 then 163 else messwert
  let m2 := if 770 < m1 then 770 else m1
  let cm := 23962 / (m2 + 20)
  let c  := if cosAlpha = 0 then 1 else cosAlpha
  (cm * 100 / c) % 65536

/-- Closed form of the clamp: the two successive `if`s in the C code compute
`min 770 (max 163 messwert)`. -/
lemma clamp_eq (messwert : Nat) :
    (if 770 < (if messwert < 163 then 163 else messwert) then 770
     else (if messwert < 163 then 163 else messwert))
      = min 770 (max 163 messwert) := by
  split_ifs <;> omega

/-- The value computed by `linearisierungAD` before the `uint16_t` return cast
is at most `13000`, hence the cast truncates nothing. -/
lemma lin_core_le (messwert c : Nat) :
    23962 / (min 770 (max 163 messwert) + 20) * 100 / (if c = 0 then 1 else c)
      ≤ 13000 := by
  have h163 : 163 ≤ min 770 (max 163 messwert) := by omega
  have hdiv : 23962 / (min 770 (max 163 messwert) + 20) ≤ 23962 / 183 :=
    Nat.div_le_div_left (by omega) (by omega)
  have hdiv' : 23962 / (min 770 (max 163 messwert) + 20) ≤ 130 := by
    simpa using hdiv
  calc 23962 / (min 770 (max 163 messwert) + 20) * 100 / (if c = 0 then 1 else c)
      ≤ 23962 / (min 770 (max 163 messwert) + 20) * 100 := Nat.div_le_self _ _
    _ ≤ 130 * 100 := Nat.mul_le_mul_right 100 hdiv'
    _ ≤ 13000 := by omega

/-- Closed form of `linearisierungAD`: clamp via `min`/`max`, zero angle factor
promoted to `1` via `max`, and the final `% 65536` dropped because the value
fits in `uint16_t`. -/
lemma linearisierungAD_eq (messwert cosAlpha : Nat) :
    linearisierungAD messwert cosAlpha
      = 23962 / (min 770 (max 163 messwert) + 20) * 100
          / (if cosAlpha = 0 then 1 else cosAlpha) := by
  simp only [linearisierungAD]
  rw [clamp_eq]
  exact Nat.mod_eq_of_lt (lt_of_le_of_lt (lin_core_le messwert cosAlpha) (by omega))

/-- **C1.** For every ADC input `messwert` with `messwert < 163` (`ADC_MIN_CLAMP`)
or `messwert > 770` (`ADC_MAX_CLAMP`), and every angle factor `cosAlpha`,
`linearisierungAD messwert cosAlpha` equals `linearisierungAD` at the nearest
boundary value (`163`, resp. `770`) with the same `cosAlpha`. -/
theorem linearisierungAD_clamps (messwert cosAlpha : Nat) :
    (messwert < 163 →
      linearisierungAD messwert cosAlpha = linearisierungAD 163 cosAlpha) ∧
    (770 < messwert →
      linearisierungAD messwert cosAlpha = linearisierungAD 770 cosAlpha) := by
  refine ⟨fun h => ?_, fun h => ?_⟩ <;> rw [linearisierungAD_eq, linearisierungAD_eq]
  · have hm : min 770 (max 163 messwert) = min 770 (max 163 163) := by omega
    rw [hm]
  · have hm : min 770 (max 163 messwert) = min 770 (max 163 770) := by omega
    rw [hm]

/-- Witness for C1: `linearisierungAD` pins `100` to `163` and `4000` to `770`
(checked at `cosAlpha = 50`). -/
theorem linearisierungAD_clamps_witness :
    linearisierungAD 100 50 = linearisierungAD 163 50 ∧
    linearisierungAD 4000 50 = linearisierungAD 770 50 :=
  ⟨(linearisierungAD_clamps 100 50).1 (by decide),
   (linearisierungAD_clamps 4000 50).2 (by decide)⟩

/-- **C2.** For every ADC input `messwert`, a zero angle-correction factor is
silently substituted with `1` before the division:
`linearisierungAD messwert 0 = linearisierungAD messwert 1`. -/
theorem linearisierungAD_zero_cos (messwert : Nat) :
    linearisierungAD messwert 0 = linearisierungAD messwert 1 := by
  rw [linearisierungAD_eq, linearisierungAD_eq]
  norm_num

/-- **C7.** At the clamp boundaries with `cosAlpha = 100`, the code's
truncation order (divide by `messwert + 20` first, then multiply by `100`
and divide by `cosAlpha`) yields `23962 / 183 = 130` and `23962 / 790 = 30`. -/
theorem linearisierungAD_boundary_values :
    linearisierungAD 163 100 = 23962 / 183 ∧ linearisierungAD 163 100 = 130 ∧
    linearisierungAD 770 100 = 23962 / 790 ∧ linearisierungAD 770 100 = 30 := by
  refine ⟨?_, ?_, ?_, ?_⟩ <;> decide

/-- **C6.** For every fixed angle factor `cosAlpha`, `linearisierungAD` is
non-increasing in `messwert`: if `m1 ≤ m2` then
`linearisierungAD m2 cosAlpha ≤ linearisierungAD m1 cosAlpha`. -/
theorem linearisierungAD_antitone (cosAlpha m1 m2 : Nat) (h : m1 ≤ m2) :
    linearisierungAD m2 cosAlpha ≤ linearisierungAD m1 cosAlpha := by
  rw [linearisierungAD_eq, linearisierungAD_eq]
  have hclamp : min 770 (max 163 m1) ≤ min 770 (max 163 m2) := by omega
  have hdiv : 23962 / (min 770 (max 163 m2) + 20)
      ≤ 23962 / (min 770 (max 163 m1) + 20) :=
    Nat.div_le_div_left (by omega) (by omega)
  exact Nat.div_le_div_right (Nat.mul_le_mul_right 100 hdiv)

/-- Witness for C6: monotonicity at `m1 = 200 ≤ m2 = 600`, `cosAlpha = 100`. -/
theorem linearisierungAD_antitone_witness :
    linearisierungAD 600 100 ≤ linearisierungAD 200 100 :=
  linearisierungAD_antitone 100 200 600 (by decide)

/-- The process-wide mutable state of the controller: the globals of
`sim_globals.c` (`fwert`, `swert`, `leistung_now`, `winkel_now`,
`abstandvorne`, `abstandlinks`, `abstandrechts`) together with the static
local `boot_sig` of `fahren1` in `myFunktions.c`.  `int` and `int8_t` cells
are `Int`, `uint16_t` cells are `Nat`, `static int boot_sig` is `Int`. -/
structure CarState where
  fwert : Int
  swert : Int
  leistung_now : Int
  winkel_now : Int
  abstandvorne : Nat
  abstandlinks : Nat
  abstandrechts : Nat
  boot_sig : Int
  deriving Repr, DecidableEq

/-- `void fahr(int f)` from `cc-lib.c`: `fwert = f`. -/
def fahr (f : Int) (s : CarState) : CarState := { s with fwert := f }

/-- `int getfwert(void)` from `cc-lib.c`: `return fwert`. -/
def getfwert (s : CarState) : Int := s.fwert

/-- `void servo(int w)` from `cc-lib.c`: `swert = w`. -/
def servo (w : Int) (s : CarState) : CarState := { s with swert := w }

/-- `int getswert(void)` from `cc-lib.c`: `return swert`. -/
def getswert (s : CarState) : Int := s.swert

/-- `void getfahr(int8_t leistung)` from `cc-lib.c`: `leistung_now = leistung`.
The `int8_t` parameter is modelled by wrapping the argument into
`[-128, 127]`. -/
def getfahr (leistung : Int) (s : CarState) : CarState :=
  { s with leistung_now := i8 leistung }

/-- `int8_t getFahr(void)` from `cc-lib.c`: `return leistung_now`. -/
def getFahr (s : CarState) : Int := s.leistung_now

/-- `void getservo(int8_t winkel)` from `cc-lib.c`: `winkel_now = winkel`.
The `int8_t` parameter is modelled by wrapping the argument into
`[-128, 127]`. -/
def getservo (winkel : Int) (s : CarState) : CarState :=
  { s with winkel_now := i8 winkel }

/-- `int8_t getServo(void)` from `cc-lib.c`: `return winkel_now`. -/
def getServo (s : CarState) : Int := s.winkel_now

/-- `int16_t mo(uint16_t w)` from `myFunktions.c`: with `Kpz = 3`, `Kpn = 8`,
`y = (int16_t)abstandlinks - (int16_t)abstandrechts`, `e = (int16_t)w - y`,
`u = (int16_t)(e * Kpz) / Kpn`.  `int16_t` assignments wrap via `i16`; the
C signed division truncates toward zero (`Int.tdiv`). -/
def mo (w : Nat) (s : CarState) : Int :=
  let y : Int := i16 (i16 (s.abstandlinks : Int) - i16 (s.abstandrechts : Int))
  let e : Int := i16 (i16 (w : Int) - y)
  let u : Int := i16 ((i16 (e * 3)).tdiv 8)
  u

/-- `void fahren1(void)` from `myFunktions.c`, as shipped
(`static int boot_sig = 0`): decrement `boot_sig`; while it was positive,
warm-up wiggle (`fahr(0)`, alternating `servo(±10)`); otherwise read
`leistung = getFahr()` and either avoid (some distance `< 50`: `fahr(-20)`,
`servo(abstandlinks > abstandrechts ? 10 : -10)`) or drive normally
(`fahr(25)`, `servo(mo(0))`).  The C `%` on the decremented positive
`boot_sig` truncates toward zero (`Int.tmod`). -/
def fahren1 (s : CarState) : CarState :=
  let s1 := { s with boot_sig := s.boot_sig - 1 }
  if 0 < s.boot_sig then
    servo (if (s1.boot_sig).tmod 10 < 5 then 10 else -10) (fahr 0 s1)
  else
    let leistung := getFahr s1
    if s1.abstandlinks < 50 ∨ s1.abstandvorne < 50 ∨ s1.abstandrechts < 50 ∨
        (leistung < 0 ∧ (s1.abstandlinks < 50 ∨ s1.abstandvorne < 50 ∨
          s1.abstandrechts < 50)) then
      servo (if s1.abstandlinks > s1.abstandrechts then 10 else -10) (fahr (-20) s1)
    else
      servo (mo 0 s1) (fahr 25 s1)

/-- `void regelungtechnik(void)` from `cc-lib.c`: delegates to `fahren1()`. -/
def regelungtechnik (s : CarState) : CarState := fahren1 s

/-- With the warm-up exhausted (`boot_sig ≤ 0`), one tick of `fahren1` either
avoids (some distance `< 50`: `fwert = -20`, steer by clearance comparison) or
drives normally (`fwert = 25`, `swert = mo 0`); the extra
`leistung < 0 ∧ …` disjunct of the C condition is redundant. -/
lemma fahren1_drive_eq (s : CarState) (h : s.boot_sig ≤ 0) :
    fahren1 s =
      if s.abstandlinks < 50 ∨ s.abstandvorne < 50 ∨ s.abstandrechts < 50 then
        { s with boot_sig := s.boot_sig - 1, fwert := -20,
                 swert := if s.abstandlinks > s.abstandrechts then 10 else -10 }
      else
        { s with boot_sig := s.boot_sig - 1, fwert := 25, swert := mo 0 s } := by
  simp only [fahren1, fahr, servo, getFahr]
  rw [if_neg (by omega : ¬ 0 < s.boot_sig)]
  split_ifs <;> first | rfl | tauto

/-- Every tick decrements `boot_sig` by one, whichever branch runs. -/
lemma fahren1_boot_sig (s : CarState) :
    (fahren1 s).boot_sig = s.boot_sig - 1 := by
  simp only [fahren1, fahr, servo, getFahr]
  split_ifs <;> rfl

/-- **C3 (amended).** Whenever the tick runs its avoidance branch (some
distance among front/left/right below 50), it commands `fwert = -20` and
steers toward the side with the larger clearance, ties broken toward the
right: it steers right (`swert = -10`, the spec's sign convention putting
`+10` toward the left) whenever the right distance is greater than or equal
to the left distance, and steers left (`swert = 10`) whenever the left
distance is strictly greater than the right distance. -/
theorem avoidance_branch_steer (s : CarState) (hboot : s.boot_sig ≤ 0)
    (hc : s.abstandlinks < 50 ∨ s.abstandvorne < 50 ∨ s.abstandrechts < 50) :
    getfwert (fahren1 s) = -20 ∧
    (s.abstandlinks ≤ s.abstandrechts → getswert (fahren1 s) = -10) ∧
    (s.abstandlinks > s.abstandrechts → getswert (fahren1 s) = 10) := by
  rw [fahren1_drive_eq s hboot, if_pos hc]
  refine ⟨rfl, fun hle => ?_, fun hgt => ?_⟩
  · simp only [getswert]
    rw [if_neg (by omega)]
  · simp only [getswert]
    rw [if_pos hgt]

/-- Counterexample to C3 as stated: at front `20`, left `60`, right `40` the
avoidance branch runs and the left distance is greater than or equal to the
right one, yet the code steers left (`swert = 10`), not right (`-10`). -/
theorem avoidance_branch_steer_counterexample :
    (⟨0, 0, 10, 0, 20, 60, 40, 0⟩ : CarState).abstandvorne < 50 ∧
    (⟨0, 0, 10, 0, 20, 60, 40, 0⟩ : CarState).abstandrechts ≤
      (⟨0, 0, 10, 0, 20, 60, 40, 0⟩ : CarState).abstandlinks ∧
    getswert (fahren1 ⟨0, 0, 10, 0, 20, 60, 40, 0⟩) = 10 ∧
    getswert (fahren1 ⟨0, 0, 10, 0, 20, 60, 40, 0⟩) ≠ -10 := by
  refine ⟨by decide, by decide, by decide, by decide⟩

/-- Witness for the amended C3 at front `20`, left `30`, right `40`
(right clearance larger, so the car steers right). -/
theorem avoidance_branch_steer_witness :
    getfwert (fahren1 ⟨0, 0, 0, 0, 20, 30, 40, 0⟩) = -20 ∧
    getswert (fahren1 ⟨0, 0, 0, 0, 20, 30, 40, 0⟩) = -10 := by
  have h := avoidance_branch_steer ⟨0, 0, 0, 0, 20, 30, 40, 0⟩
    (by decide) (by decide)
  exact ⟨h.1, h.2.1 (by decide)⟩

/-- **C4.** With front `20`, left `60`, right `40`, current power `10`, and
warm-up exhausted (shipped `boot_sig = 0`), one tick of `regelungtechnik`
commands `fwert = -20` and `swert = 10`. -/
theorem tick_avoidance_scenario :
    getfwert (regelungtechnik ⟨0, 0, 10, 0, 20, 60, 40, 0⟩) = -20 ∧
    getswert (regelungtechnik ⟨0, 0, 10, 0, 20, 60, 40, 0⟩) = 10 := by
  refine ⟨by decide, by decide⟩

/-- **C5.** With front `120`, left `50`, right `50`, current power `30`, and
warm-up exhausted (shipped `boot_sig = 0`), one tick of `regelungtechnik`
commands `fwert ≥ 18` (the deadzone minimum) and `swert = 0`. -/
theorem tick_normal_scenario :
    18 ≤ getfwert (regelungtechnik ⟨0, 0, 30, 0, 120, 50, 50, 0⟩) ∧
    getswert (regelungtechnik ⟨0, 0, 30, 0, 120, 50, 50, 0⟩) = 0 := by
  refine ⟨by decide, by decide⟩

/-- **C8.** The warm-up countdown `boot_sig` is decremented exactly once per
tick, and once the controller is in the DRIVE state (`boot_sig ≤ 0`) it stays
there for every number of further ticks. -/
theorem warmup_countdown_drive_terminal (s : CarState) (n : Nat) :
    (fahren1 s).boot_sig = s.boot_sig - 1 ∧
    (s.boot_sig ≤ 0 → (fahren1^[n] s).boot_sig ≤ 0) := by
  refine ⟨fahren1_boot_sig s, fun h => ?_⟩
  induction n generalizing s with
  | zero => simpa using h
  | succ k ih =>
      rw [Function.iterate_succ_apply]
      exact ih (fahren1 s) (by rw [fahren1_boot_sig]; omega)

/-- Witness for C8: from `boot_sig = 0`, one tick reaches `-1` and three
ticks still leave the controller in the DRIVE state. -/
theorem warmup_countdown_drive_terminal_witness :
    (fahren1 (⟨0, 0, 0, 0, 100, 100, 100, 0⟩ : CarState)).boot_sig = -1 ∧
    (fahren1^[3] (⟨0, 0, 0, 0, 100, 100, 100, 0⟩ : CarState)).boot_sig ≤ 0 := by
  have h := warmup_countdown_drive_terminal ⟨0, 0, 0, 0, 100, 100, 100, 0⟩ 3
  exact ⟨h.1.trans (by decide), h.2 (by decide)⟩

/-- **C9.** Each set entry point followed by its get entry point returns the
stored value unchanged: `fahr`/`getfwert` and `servo`/`getswert` for every
integer, `getfahr`/`getFahr` and `getservo`/`getServo` for every value in
the `int8_t` range. -/
theorem set_get_roundtrip (s : CarState) (v w p q : Int)
    (hp : -128 ≤ p ∧ p ≤ 127) (hq : -128 ≤ q ∧ q ≤ 127) :
    getfwert (fahr v s) = v ∧ getswert (servo w s) = w ∧
    getFahr (getfahr p s) = p ∧ getServo (getservo q s) = q := by
  refine ⟨rfl, rfl, ?_, ?_⟩ <;>
    simp only [getFahr, getfahr, getServo, getservo, i8] <;> omega

/-- Witness for C9 at `v = 7`, `w = -3`, `p = 5`, `q = -6`. -/
theorem set_get_roundtrip_witness :
    getfwert (fahr 7 ⟨0, 0, 0, 0, 0, 0, 0, 0⟩) = 7 ∧
    getswert (servo (-3) ⟨0, 0, 0, 0, 0, 0, 0, 0⟩) = -3 ∧
    getFahr (getfahr 5 ⟨0, 0, 0, 0, 0, 0, 0, 0⟩) = 5 ∧
    getServo (getservo (-6) ⟨0, 0, 0, 0, 0, 0, 0, 0⟩) = -6 :=
  set_get_roundtrip ⟨0, 0, 0, 0, 0, 0, 0, 0⟩ 7 (-3) 5 (-6)
    (by decide) (by decide)

/-- **C10.** On every tick executed in the DRIVE state (`boot_sig ≤ 0`),
`fwert` is exactly `-20` when some distance among front/left/right is below
`50` and exactly `25` otherwise; in particular its magnitude is never in the
open interval `(0, 18)`; and both `fwert` and `swert` are freshly written
(their new values are determined by the sensor state alone). -/
theorem drive_tick_output_invariant (s : CarState) (h : s.boot_sig ≤ 0) :
    ((regelungtechnik s).fwert =
      if s.abstandlinks < 50 ∨ s.abstandvorne < 50 ∨ s.abstandrechts < 50
      then -20 else 25) ∧
    ((regelungtechnik s).swert =
      if s.abstandlinks < 50 ∨ s.abstandvorne < 50 ∨ s.abstandrechts < 50
      then (if s.abstandlinks > s.abstandrechts then 10 else -10)
      else mo 0 s) ∧
    ¬(0 < |(regelungtechnik s).fwert| ∧ |(regelungtechnik s).fwert| < 18) := by
  simp only [regelungtechnik]
  rw [fahren1_drive_eq s h]
  split_ifs <;> refine ⟨rfl, rfl, ?_⟩ <;> norm_num

/-- Witness for C10: with all distances at `200` and `boot_sig = 0`, the tick
commands `fwert = 25`, whose magnitude is outside the deadzone. -/
theorem drive_tick_output_invariant_witness :
    (regelungtechnik (⟨0, 0, 0, 0, 200, 200, 200, 0⟩ : CarState)).fwert = 25 ∧
    ¬(0 < |(regelungtechnik (⟨0, 0, 0, 0, 200, 200, 200, 0⟩ : CarState)).fwert| ∧
      |(regelungtechnik (⟨0, 0, 0, 0, 200, 200, 200, 0⟩ : CarState)).fwert| < 18) := by
  have h := drive_tick_output_invariant ⟨0, 0, 0, 0, 200, 200, 200, 0⟩ (by decide)
  exact ⟨h.1.trans (by decide), h.2.2⟩

end CrazyCar
